import Mathlib

/-!
Verification of the agent-framework sample repository.

Shallow embedding of the three components the claims concern:
1. the weather utility module (weather_utils.py),
2. the markdown-to-docx converter (generate_architecture_doc.py),
3. the slide-deck generator (generate_presentation.py).

Machine strings are Lean Strings; Python exceptions become Except values;
the simulated HTTP transport is an explicit value passed to the weather
functions; outbound-request counting is threaded as a Nat result component.
-/

namespace AgentSamples

/-! ## Python string primitives

These model the exact behaviour of the Python str methods the sources use
(rstrip, lstrip, strip, split on a one-character separator, str.join,
str.capitalize, truthiness of an optional string).
-/

/-- Python whitespace characters recognised by str.strip and friends
(ASCII subset; all inputs in this repository are ASCII). -/
def pyIsSpace (c : Char) : Bool :=
  c = ' ' || c = '\t' || c = '\n' || c = '\r' || c = '\x0b' || c = '\x0c'

/-- Right strip on a character list. -/
def pyRstripL (cs : List Char) : List Char :=
  ((cs.reverse).dropWhile pyIsSpace).reverse

/-- Left strip on a character list. -/
def pyLstripL (cs : List Char) : List Char :=
  cs.dropWhile pyIsSpace

/-- Full strip on a character list. -/
def pyStripL (cs : List Char) : List Char :=
  pyLstripL (pyRstripL cs)

/-- Python str.rstrip(). -/
def pyRstrip (s : String) : String := String.mk (pyRstripL s.data)

/-- Python str.strip(). -/
def pyStrip (s : String) : String := String.mk (pyStripL s.data)

/-- Python sep.join(xs). -/
def pyJoin (sep : String) : List String → String
  | [] => ""
  | [x] => x
  | x :: xs => x ++ sep ++ pyJoin sep xs

/-- Python str.split(sep) for a one-character separator, on char lists.
The result list is always nonempty. -/
def pySplitCharL (sep : Char) : List Char → List (List Char)
  | [] => [[]]
  | c :: cs =>
    match pySplitCharL sep cs with
    | [] => [[]]
    | h :: t => if c = sep then [] :: h :: t else (c :: h) :: t

/-- Python line.split(sep) for a one-character separator. -/
def pySplitChar (sep : Char) (s : String) : List String :=
  (pySplitCharL sep s.data).map String.mk

/-- Python str.capitalize(): first character upper-cased, the rest lower-cased. -/
def pyCapitalize (s : String) : String :=
  match s.data with
  | [] => ""
  | c :: cs => String.mk (c.toUpper :: cs.map Char.toLower)

/-- Python truthiness test used by the sources as `if not api_key` on the
result of os.getenv: None and the empty string are falsy. -/
def pyFalsyStr : Option String → Bool
  | none => true
  | some s => s.data = []

/-! ## JSON values

Model of the value a successful `await response.json()` produces.  A JSON
number is carried as the decimal text Python renders for it inside an
f-string (all claim statements instantiate numbers with concrete texts such
as "15.5"), so that string interpolation of the parsed value is exact. -/

inductive Json where
  | str (s : String)
  | num (t : String)
  | arr (xs : List Json)
  | obj (kvs : List (String × Json))

/-- Python str() of a parsed JSON value, as interpolated by an f-string.
Container values never reach an interpolation site on any path the claims
exercise; their textual form is abstracted to a fixed placeholder. -/
def Json.render : Json → String
  | .str s => s
  | .num t => t
  | .arr _ => "[...]"
  | .obj _ => "\x7b...\x7d"

/-- Python subscription value[key] with a string key: dict lookup, raising
KeyError when the key is missing and TypeError when the value is not a dict.
The error string models str(e) of the raised exception. -/
def Json.sub : Json → String → Except String Json
  | .obj kvs, k =>
    match kvs.lookup k with
    | some v => .ok v
    | none => .error ("\x27" ++ k ++ "\x27")
  | .arr _, _ => .error "list indices must be integers or slices, not str"
  | .str _, _ => .error "string indices must be integers"
  | .num _, _ => .error "float object is not subscriptable"

/-- Python subscription value[i] with an integer index. -/
def Json.idx : Json → Nat → Except String Json
  | .arr xs, i =>
    match xs.get? i with
    | some v => .ok v
    | none => .error "list index out of range"
  | .obj _, i => .error (toString i)
  | .str _, _ => .error "string index out of range"
  | .num _, _ => .error "float object is not subscriptable"

/-- Python dict.get(key, default) where the default is the literal string
"N/A"; the present value is rendered at the interpolation site. -/
def Json.getD (j : Json) (k : String) (d : String) : Except String String :=
  match j with
  | .obj kvs =>
    match kvs.lookup k with
    | some v => .ok v.render
    | none => .ok d
  | _ => .error "object has no attribute get"

/-- Python value.capitalize(): succeeds only on a str value, otherwise the
AttributeError text (caught by the broad except clause in the source). -/
def Json.capitalizeV : Json → Except String String
  | .str s => .ok (pyCapitalize s)
  | _ => .error "object has no attribute capitalize"

/-! ## Weather utility module (weather_utils.py)

A simulated execution of one call: the environment's API key is an
Option String, and the transport is a SimHttp value describing what the
single GET request does.  Each function returns the result string paired
with the number of outbound HTTP requests performed in that run. -/

/-- A Python exception raised by the transport or body parse: either an
aiohttp.ClientError (first except clause) or any other Exception (second). -/
inductive PyExn where
  | clientError (msg : String)
  | otherExn (msg : String)

/-- Simulated upstream behaviour of the one GET request:
either the request itself raises, or a response arrives with a status code
and a body whose `.json()` parse either yields a value or raises. -/
inductive SimHttp where
  | raiseExn (e : PyExn)
  | resp (status : Nat) (body : Except PyExn Json)

/-- Text produced by the two except clauses of both weather functions. -/
def exnText : PyExn → String
  | .clientError m => "Error: Network error occurred: " ++ m
  | .otherExn m => "Error: Unexpected error occurred: " ++ m

/-- The fixed message returned when OPENWEATHERMAP_API_KEY is unset or empty. -/
def apiKeyNotSetMsg : String :=
  "Error: OPENWEATHERMAP_API_KEY not set in environment variables.\nPlease sign up at https://openweathermap.org/api and add your API key to .env file."

/-- The fixed HTTP 401 message. -/
def invalidKeyMsg : String :=
  "Error: Invalid API key. Please check your OPENWEATHERMAP_API_KEY."

/-- The HTTP 404 message for a given location. -/
def notFoundMsg (location : String) : String :=
  "Error: City \x27" ++ location ++ "\x27 not found. Try using format like \x27Seattle\x27 or \x27London,UK\x27."

/-- The generic non-200/401/404 status message. -/
def otherStatusMsg (location : String) (status : Nat) : String :=
  "Error: Could not fetch weather for " ++ location ++ " (Status: " ++ toString status ++ ")"

/-- The 200-branch body of get_real_weather: field extraction in source
order followed by the four-item report format string. -/
def basicReport (location : String) (data : Json) : Except String String := do
  let weather ← data.sub "weather"
  let w0 ← weather.idx 0
  let weather_desc ← w0.sub "description"
  let main1 ← data.sub "main"
  let temp ← main1.sub "temp"
  let main2 ← data.sub "main"
  let feels_like ← main2.sub "feels_like"
  let main3 ← data.sub "main"
  let humidity ← main3.sub "humidity"
  let wind ← data.sub "wind"
  let wind_speed ← wind.sub "speed"
  .ok ("Weather in " ++ location ++ ":\n- Conditions: " ++ weather_desc.render ++
    "\n- Temperature: " ++ temp.render ++ "°C (feels like " ++ feels_like.render ++
    "°C)\n- Humidity: " ++ humidity.render ++ "%\n- Wind Speed: " ++ wind_speed.render ++ " m/s")

/-- The 200-branch body of get_real_weather_detailed: superset extraction in
source order (wind.deg and visibility default to "N/A") and the multi-section
report format string. -/
def detailedReport (location : String) (data : Json) : Except String String := do
  let weather ← data.sub "weather"
  let w0 ← weather.idx 0
  let weather_desc ← w0.sub "description"
  let main1 ← data.sub "main"
  let temp ← main1.sub "temp"
  let main2 ← data.sub "main"
  let feels_like ← main2.sub "feels_like"
  let main3 ← data.sub "main"
  let temp_min ← main3.sub "temp_min"
  let main4 ← data.sub "main"
  let temp_max ← main4.sub "temp_max"
  let main5 ← data.sub "main"
  let pressure ← main5.sub "pressure"
  let main6 ← data.sub "main"
  let humidity ← main6.sub "humidity"
  let wind ← data.sub "wind"
  let wind_speed ← wind.sub "speed"
  let wind2 ← data.sub "wind"
  let wind_deg ← wind2.getD "deg" "N/A"
  let clouds ← data.sub "clouds"
  let cloudiness ← clouds.sub "all"
  let visibility ← data.getD "visibility" "N/A"
  let descCap ← weather_desc.capitalizeV
  .ok ("Detailed Weather Report for " ++ location ++ ":\n━━━━━━━━━━━━━━━━━━━━━━━━━━━━━━━━\nConditions: " ++
    descCap ++ "\n\nTemperature:\n  • Current: " ++ temp.render ++ "°C (feels like " ++
    feels_like.render ++ "°C)\n  • Min/Max: " ++ temp_min.render ++ "°C / " ++ temp_max.render ++
    "°C\n\nAtmospheric Conditions:\n  • Pressure: " ++ pressure.render ++ " hPa\n  • Humidity: " ++
    humidity.render ++ "%\n  • Cloudiness: " ++ cloudiness.render ++ "%\n  • Visibility: " ++
    visibility ++ " meters\n\nWind:\n  • Speed: " ++ wind_speed.render ++ " m/s\n  • Direction: " ++
    wind_deg ++ "°")

/-- Shared response handling of both functions (the body of the try block
after the GET): status dispatch, with extraction errors routed through the
broad except clause. -/
def weatherResponse (report : String → Json → Except String String)
    (location : String) (http : SimHttp) : String :=
  match http with
  | .raiseExn e => exnText e
  | .resp status body =>
    if status = 200 then
      match body with
      | .error e => exnText e
      | .ok data =>
        match report location data with
        | .ok s => s
        | .error m => "Error: Unexpected error occurred: " ++ m
    else if status = 401 then invalidKeyMsg
    else if status = 404 then notFoundMsg location
    else otherStatusMsg location status

/-- get_real_weather(location) under a simulated environment and transport.
Returns the result string and the number of outbound HTTP requests made. -/
def get_real_weather (api_key : Option String) (location : String)
    (http : SimHttp) : String × Nat :=
  if pyFalsyStr api_key then (apiKeyNotSetMsg, 0)
  else (weatherResponse basicReport location http, 1)

/-- get_real_weather_detailed(location) under a simulated environment and
transport. -/
def get_real_weather_detailed (api_key : Option String) (location : String)
    (http : SimHttp) : String × Nat :=
  if pyFalsyStr api_key then (apiKeyNotSetMsg, 0)
  else (weatherResponse detailedReport location http, 1)

/-! ## Markdown-to-docx converter (generate_architecture_doc.py)

The produced document is modelled as an ordered list of blocks; a raised
IndexError during table rendering makes the whole conversion an Except error
(the process dies), and the missing-source SystemExit is the Except error of
convert_md_to_docx on a missing file. -/

/-- One inline run of a paragraph: plain text or a monospaced span. -/
inductive Run where
  | text (s : String)
  | code (s : String)
deriving DecidableEq

/-- One block-level element of the output document, in emission order. -/
inductive Block where
  | heading (level : Nat) (text : String)
  | codeBlock (lang : Option String) (content : String)
  | table (header : List String) (body : List (List String))
  | paragraph (runs : List Run)
deriving DecidableEq

/-- CODE_FENCE regex r"^```(.*)$": the line starts with three backticks;
the captured group is the rest of the line. -/
def fenceMatch (line : String) : Option String :=
  if line.data.take 3 = "```".data then some (String.mk (line.data.drop 3)) else none

/-- HEADING regex r"^(#{1,6})\s+(.*)$": one to six leading markers followed
by at least one whitespace character; group 2 is the rest with the leading
whitespace run removed.  Seven or more markers never match (the regex cannot
backtrack into a whitespace character, which would have to be another marker). -/
def headingMatch (line : String) : Option (Nat × String) :=
  let n := (line.data.takeWhile (· = '#')).length
  match line.data.drop n with
  | [] => none
  | c :: cs =>
    if 1 ≤ n ∧ n ≤ 6 ∧ pyIsSpace c then
      some (n, String.mk ((c :: cs).dropWhile pyIsSpace))
    else none

/-- TABLE_ROW regex r"^\|.*\|$". -/
def tableRowMatch (line : String) : Bool :=
  line.data.head? = some '|' && line.data.getLast? = some '|' && 2 ≤ line.data.length

/-- Alignment-separator cell regex r"^:?-\x7b3,\x7d:?$". -/
def isAlignCell (s : String) : Bool :=
  let t := if s.data.head? = some ':' then s.data.drop 1 else s.data
  let t := if t.getLast? = some ':' then t.dropLast else t
  3 ≤ t.length && t.all (· = '-')

/-- INLINE_CODE regex r"`([^`]+)`" scanned over a paragraph line, split into
plain and monospaced runs exactly as the finditer loop does (empty plain
segments are skipped; an unmatched backtick is ordinary text).
The pend argument holds the characters seen since an as-yet-unclosed
backtick; acc holds the pending plain characters. -/
def scanRuns : List Char → List Char → Option (List Char) → List Run
  | [], acc, none => if acc = [] then [] else [.text (String.mk acc)]
  | [], acc, some pend =>
    let acc := acc ++ '`' :: pend
    if acc = [] then [] else [.text (String.mk acc)]
  | c :: cs, acc, none =>
    if c = '`' then scanRuns cs acc (some [])
    else scanRuns cs (acc ++ [c]) none
  | c :: cs, acc, some pend =>
    if c = '`' then
      if pend = [] then scanRuns cs (acc ++ ['`']) (some [])
      else
        (if acc = [] then [] else [.text (String.mk acc)]) ++
          Run.code (String.mk pend) :: scanRuns cs [] none
    else scanRuns cs acc (some (pend ++ [c]))

/-- The runs of one paragraph line. -/
def parseInline (line : String) : List Run := scanRuns line.data [] none

/-- add_heading: levels above 4 are clamped to 4. -/
def add_heading (text : String) (level : Nat) : Block :=
  .heading (if level ≤ 4 then level else 4) text

/-- add_code_block: the buffered lines joined with newlines. -/
def add_code_block (code_lines : List String) (lang : Option String) : Block :=
  .codeBlock lang (pyJoin "\n" code_lines)

/-- Assignment loop of add_table for one body row into a fresh row of cols
cells: positional indexing raises IndexError when the row is longer than the
header-derived width; unassigned trailing cells keep their empty default. -/
def setRowCells (cols : Nat) (row : List String) : Except String (List String) :=
  if row.length ≤ cols then
    .ok (row.map pyStrip ++ List.replicate (cols - row.length) "")
  else .error "tuple index out of range"

/-- The body-row loop of add_table: renders each captured row in order into
a table row, propagating a raised IndexError. -/
def renderRows (cols : Nat) : List (List String) → Except String (List (List String))
  | [] => .ok []
  | r :: rs => do
    let c ← setRowCells cols r
    let cs ← renderRows cols rs
    .ok (c :: cs)

/-- add_table: no output for zero captured rows; otherwise a table sized to
the first row's cell count, first row as header, the rest as body rows. -/
def add_table (rows : List (List String)) : Except String (Option Block) :=
  match rows with
  | [] => .ok none
  | hdr :: body => do
    let brows ← renderRows hdr.length body
    .ok (some (.table (hdr.map pyStrip) brows))

/-- Mutable state of the conversion loop. -/
structure ConvSt where
  in_code : Bool := false
  code_lang : Option String := none
  code_buffer : List String := []
  table_buffer : List (List String) := []
  out : List Block := []
deriving DecidableEq

/-- The initial conversion state. -/
def initSt : ConvSt := {}

/-- flush_code: emits the buffered code block if any lines were captured
(an empty buffer leaves the state unchanged, including the language tag). -/
def flush_code (st : ConvSt) : ConvSt :=
  if st.code_buffer = [] then st
  else { st with out := st.out ++ [add_code_block st.code_buffer st.code_lang],
                 code_buffer := [], code_lang := none }

/-- flush_table: renders the buffered rows if any were captured; a raised
IndexError in add_table aborts the conversion. -/
def flush_table (st : ConvSt) : Except String ConvSt :=
  if st.table_buffer = [] then .ok st
  else do
    let blk ← add_table st.table_buffer
    .ok { st with out := st.out ++ blk.toList, table_buffer := [] }

/-- group(1).strip() or None on an opening fence. -/
def strOrNone (s : String) : Option String :=
  if s = "" then none else some s

/-- The body of the conversion loop for one raw input line. -/
def convertStep (st : ConvSt) (raw_line : String) : Except String ConvSt :=
  let line := pyRstrip raw_line
  match fenceMatch line with
  | some rest =>
    if st.in_code then .ok { flush_code st with in_code := false }
    else .ok { st with in_code := true, code_lang := strOrNone (pyStrip rest) }
  | none =>
    if st.in_code then .ok { st with code_buffer := st.code_buffer ++ [line] }
    else if pyStrip line = "" then do
      let st ← flush_table st
      .ok { st with out := st.out ++ [.paragraph []] }
    else match headingMatch line with
    | some (level, text) => do
      let st ← flush_table st
      .ok { st with out := st.out ++ [add_heading (pyStrip text) level] }
    | none =>
      if tableRowMatch line then
        let parts := (((pySplitChar '|' line).map pyStrip).drop 1).dropLast
        if parts.all isAlignCell then .ok st
        else .ok { st with table_buffer := st.table_buffer ++ [parts] }
      else do
        let st ← flush_table st
        .ok { st with out := st.out ++ [.paragraph (parseInline line)] }

/-- The whole conversion of a list of source lines (iter_lines already
stripped the trailing newline of each), including the trailing flushes. -/
def convert_lines (lines : List String) : Except String (List Block) := do
  let st ← lines.foldlM convertStep initSt
  let st := flush_code st
  let st ← flush_table st
  .ok st.out

/-- The fixed markdown source path (relative to the script directory ROOT). -/
def MD_FILE : String := "architecture_components.md"

/-- convert_md_to_docx: the existence check precedes any document
construction; a missing source is the SystemExit error (non-zero process
exit) carrying the message that names the missing path, and no document
is produced or saved on that path. -/
def convert_md_to_docx (src : Option (List String)) : Except String (List Block) :=
  match src with
  | none => .error ("Markdown file not found: " ++ MD_FILE)
  | some lines => convert_lines lines

/-! ## Slide deck generator (generate_presentation.py)

Lengths are EMU integers as produced by python-pptx Inches and Pt; the deck
is a record of canvas dimensions plus the ordered slide list, and alongside
it an event trace records the order in which main assigns the canvas
dimensions and appends slides. -/

/-- python-pptx Inches: EMU count, truncating like int() on the product. -/
def Inches (x : ℚ) : ℤ := Rat.floor (x * 914400)

/-- python-pptx Pt: EMU count of a point length. -/
def Pt (x : ℚ) : ℤ := Rat.floor (x * 12700)

/-- An RGBColor value. -/
structure Rgb where
  r : Nat
  g : Nat
  b : Nat
deriving DecidableEq

/-- One body paragraph of a content or two-column placeholder, with the
font properties the script assigns (unassigned ones stay none). -/
structure BodyPara where
  text : String
  size : Option ℤ := none
  space_after : Option ℤ := none
  level : Option Nat := none
deriving DecidableEq

/-- The non-title payload of one slide, one variant per constructor
function in the script. -/
inductive SlideBody where
  | subtitleText (s : String)
  | contentBullets (items : List BodyPara)
  | twoColumns (left : List BodyPara) (right : List BodyPara)
  | codeSample (tLeft tTop tWidth tHeight cLeft cTop cWidth cHeight : ℤ)
      (codeText : String) (codeFontName : String) (codeFontSize : ℤ)
      (wordWrap : Bool) (fill : Rgb) (language : String)
deriving DecidableEq

/-- One slide: layout index, title text, the font properties assigned to
the title paragraph, and the body payload. -/
structure Slide where
  layout : Nat
  titleText : String
  titleSize : Option ℤ := none
  titleBold : Option Bool := none
  titleColor : Option Rgb := none
  body : SlideBody
deriving DecidableEq

/-- The slide categories of the four constructor functions. -/
inductive SlideCat where
  | titleS
  | contentS
  | twoColS
  | codeS
deriving DecidableEq

/-- The category of a slide. -/
def Slide.cat (s : Slide) : SlideCat :=
  match s.body with
  | .subtitleText _ => .titleS
  | .contentBullets _ => .contentS
  | .twoColumns _ _ => .twoColS
  | .codeSample _ _ _ _ _ _ _ _ _ _ _ _ _ _ => .codeS

/-- The presentation object state. -/
structure Pres where
  slide_width : Option ℤ := none
  slide_height : Option ℤ := none
  slides : List Slide := []
deriving DecidableEq

/-- One recorded side effect of main, in execution order. -/
inductive Ev where
  | setWidth (v : ℤ)
  | setHeight (v : ℤ)
  | addSlide (c : SlideCat)
deriving DecidableEq

/-- Whether an event is a slide addition. -/
def Ev.isAddSlide : Ev → Bool
  | .addSlide _ => true
  | _ => false

/-- A presentation under construction: its state and its event trace. -/
abbrev Build := Pres × List Ev

/-- prs.slide_width assignment. -/
def setSlideWidth (b : Build) (v : ℤ) : Build :=
  ({ b.1 with slide_width := some v }, b.2 ++ [.setWidth v])

/-- prs.slide_height assignment. -/
def setSlideHeight (b : Build) (v : ℤ) : Build :=
  ({ b.1 with slide_height := some v }, b.2 ++ [.setHeight v])

/-- slides.add_slide plus the per-slide assignments of one constructor. -/
def appendSlide (b : Build) (s : Slide) : Build :=
  ({ b.1 with slides := b.1.slides ++ [s] }, b.2 ++ [.addSlide s.cat])

/-- create_title_slide: layout 0, 44pt bold title in RGB(0,51,102). -/
def create_title_slide (b : Build) (title subtitle : String) : Build :=
  appendSlide b
    { layout := 0, titleText := title, titleSize := some (Pt 44),
      titleBold := some true, titleColor := some ⟨0, 51, 102⟩,
      body := .subtitleText subtitle }

/-- create_content_slide: default layout 1, 32pt bold title in RGB(0,51,102),
18pt bullets with 12pt spacing at level 0. -/
def create_content_slide (b : Build) (title : String) (content_items : List String)
    (layout_index : Nat := 1) : Build :=
  appendSlide b
    { layout := layout_index, titleText := title, titleSize := some (Pt 32),
      titleBold := some true, titleColor := some ⟨0, 51, 102⟩,
      body := .contentBullets (content_items.map fun item =>
        { text := item, size := some (Pt 18), space_after := some (Pt 12), level := some 0 }) }

/-- create_two_column_slide: layout 3, 32pt bold title (no colour assigned),
16pt bullets in both columns. -/
def create_two_column_slide (b : Build) (title : String)
    (left_items right_items : List String) : Build :=
  appendSlide b
    { layout := 3, titleText := title, titleSize := some (Pt 32),
      titleBold := some true, titleColor := none,
      body := .twoColumns
        (left_items.map fun item => { text := item, size := some (Pt 16) })
        (right_items.map fun item => { text := item, size := some (Pt 16) }) }

/-- create_code_slide: blank layout 6, title textbox at (0.5,0.5) sized
9 by 0.8 with a 32pt bold RGB(0,51,102) title, code textbox at (0.5,1.5)
sized 9 by 5 in 14pt Courier New with word wrap on a RGB(240,240,240) fill. -/
def create_code_slide (b : Build) (title code_text : String)
    (language : String := "python") : Build :=
  appendSlide b
    { layout := 6, titleText := title, titleSize := some (Pt 32),
      titleBold := some true, titleColor := some ⟨0, 51, 102⟩,
      body := .codeSample (Inches 0.5) (Inches 0.5) (Inches 9) (Inches 0.8)
        (Inches 0.5) (Inches 1.5) (Inches 9) (Inches 5)
        code_text "Courier New" (Pt 14) true ⟨240, 240, 240⟩ language }

/-- The Python code sample shown on slide 10. -/
def python_code : String :=
  "# Create a weather agent with tools\nfrom agent_framework import ChatAgent\nfrom agent_framework.azure import AzureOpenAIChatClient\n\ndef get_weather(location: str) -> str:\n    \"\"\"Get weather for a location.\"\"\"\n    return f\"Weather in \x7blocation\x7d: Sunny, 72°F\"\n\nagent = ChatAgent(\n    name=\"WeatherAssistant\",\n    instructions=\"Help users with weather info\",\n    chat_client=AzureOpenAIChatClient(),\n    tools=[get_weather]\n)\n\nresponse = await agent.run(\"What\x27s the weather in Seattle?\")\nprint(response.text)"

/-- The .NET code sample shown on slide 11. -/
def dotnet_code : String :=
  "// Create a weather agent with tools\nusing Microsoft.Agents.AI;\nusing Microsoft.Agents.AI.Azure;\n\nstring GetWeather(string location) =>\n    $\"Weather in \x7blocation\x7d: Sunny, 72°F\";\n\nvar agent = new AzureOpenAIClient(\n        new Uri(Environment.GetEnvironmentVariable(\"AZURE_OPENAI_ENDPOINT\")!),\n        new AzureCliCredential())\n    .GetChatClient(\"gpt-4o\")\n    .CreateAIAgent(\n        instructions: \"Help users with weather information\",\n        tools: [AIFunctionFactory.Create(GetWeather)]);\n\nvar response = await agent.RunAsync(\"What\x27s the weather in Seattle?\");\nConsole.WriteLine(response.Text);"

/-- The workflow code sample shown on slide 12. -/
def workflow_code : String :=
  "# Create a multi-agent workflow\nfrom agent_framework import WorkflowBuilder, AgentExecutor\n\n# Create agents\nresearcher = AgentExecutor(chat_client.create_agent(\n    instructions=\"Research facts\"))\nwriter = AgentExecutor(chat_client.create_agent(\n    instructions=\"Write content\"))\n\n# Build workflow\nworkflow = (WorkflowBuilder()\n    .set_start_executor(researcher)\n    .add_edge(researcher, writer)\n    .build())\n\n# Run workflow\nasync for event in workflow.run_stream(\"Write about AI\"):\n    print(event)"

/-- main(): builds the 23-slide overview deck.  The canvas dimensions are
assigned immediately after deck creation, before any slide is appended. -/
def main : Build :=
  let b : Build := ({}, [])
  let b := setSlideWidth b (Inches 10)
  let b := setSlideHeight b (Inches 7.5)
  let b := create_title_slide b "Microsoft Agent Framework"
    "Building, Orchestrating, and Deploying AI Agents\nPrivate Preview Overview"
  let b := create_content_slide b "What is Microsoft Agent Framework?"
    ["🤖 Comprehensive multi-language framework for AI agents",
     "🔄 Support for both .NET and Python implementations",
     "🎯 Everything from simple chat agents to complex workflows",
     "🌐 Graph-based orchestration for multi-agent systems",
     "🔌 Extensible plugin ecosystem",
     "☁️ Enterprise-ready with Azure integration"]
  let b := create_content_slide b "Current Status - Private Preview"
    ["📦 Status: Active Private Preview",
     "🔄 Packages: Nightly builds available via GitHub Packages",
     "🚀 Ready for: Testing, feedback, and early adoption",
     "📝 Not yet: Public PyPI or NuGet releases",
     "💬 Feedback: GitHub issues and surveys welcomed",
     "⚡ Updates: Active development, sync regularly"]
  let b := create_content_slide b "Key Features & Capabilities"
    ["🎭 Multi-Agent Orchestration: Group chat, sequential, concurrent patterns",
     "📊 Graph-based Workflows: Data flows with streaming & checkpointing",
     "🔧 Plugin Ecosystem: Native functions, OpenAPI, Model Context Protocol",
     "🧠 LLM Support: OpenAI, Azure OpenAI, Azure AI Foundry",
     "⚙️ Runtime Support: In-process and distributed agent execution",
     "🎨 Multimodal: Text, vision, and function calling",
     "🔄 Human-in-the-Loop: Interactive approvals and interventions"]
  let b := create_content_slide b "Architecture Components"
    ["1. Chat Agents - Conversational AI agents with instructions, tools, and state management for focused tasks",
     "2. Agent Executors - Wrapper layer that integrates agents into workflows, enabling coordination between multiple agents",
     "3. Workflow Builder - Fluent API for creating graph-based orchestrations with edges, streaming, and checkpointing",
     "4. Chat Clients - Provider-agnostic abstractions supporting OpenAI, Azure OpenAI, and Azure AI Foundry",
     "5. Tools & Plugins - Type-safe function definitions with automatic schema generation for LLM invocation",
     "6. Runtime - Flexible execution supporting both in-process agents and distributed multi-agent systems"]
  let b := create_two_column_slide b "Cross-Platform Support"
    ["🐍 Python",
     "• Version: 3.10+",
     "• Platforms: Windows, macOS, Linux",
     "• Package: agent-framework",
     "• Extensions: azure-ai, microsoft",
     "• Dev Tools: uv, pip, venv"]
    [".NET",
     "• Versions: .NET 9.0, 8.0, Framework 4.7.2",
     "• Platforms: Windows, macOS, Linux",
     "• Package: Microsoft.Agents.AI",
     "• Extensions: Azure, Abstractions",
     "• Dev Tools: dotnet CLI, NuGet"]
  let b := create_content_slide b "Types of Agents"
    ["💬 ChatAgent - Simple conversational agents with tools",
     "🔄 AgentExecutor - Agents wrapped for workflows",
     "🎯 Custom Executors - Python/C# code executors in workflows",
     "🌐 Azure AI Agents - Managed agents with Azure AI Foundry",
     "🤖 Azure OpenAI Assistants - Stateful assistants",
     "📡 Copilot Studio Agents - Microsoft 365 integration"]
  let b := create_content_slide b "Multi-Agent Orchestration Patterns"
    ["🔗 Sequential - Agents execute in order",
     "⚡ Concurrent (Fan-out/Fan-in) - Parallel execution",
     "🎯 Handoff - Transfer control between agents",
     "💬 Group Chat - Multi-agent conversations",
     "🌳 Hierarchical - Leader-worker patterns",
     "🔄 Conditional Routing - Dynamic agent selection"]
  let b := create_content_slide b "Graph-Based Workflows"
    ["📊 Visual Workflow Builder - Fluent API for graph construction",
     "🎬 Streaming Support - Real-time event streaming",
     "💾 Checkpointing - Save and restore workflow state",
     "⏮️ Time-Travel Debugging - Replay workflow execution",
     "🤝 Human-in-the-Loop - Interactive approvals",
     "📈 Visualization - Mermaid and GraphViz diagrams"]
  let b := create_code_slide b "Python Example - Simple Agent" python_code
  let b := create_code_slide b ".NET Example - Simple Agent" dotnet_code
  let b := create_code_slide b "Workflow Example - Sequential Agents" workflow_code
  let b := create_content_slide b "Plugin & Tool Ecosystem"
    ["⚡ Native Functions - Python/C# functions with annotations",
     "🌐 OpenAPI - REST API integrations (planned)",
     "🔌 Model Context Protocol (MCP) - Tool interoperability",
     "🎯 Azure AI Search - Knowledge base integration (planned)",
     "🔍 Bing Grounding - Web search capabilities (planned)",
     "🔧 Custom Tools - Build your own extensions"]
  let b := create_content_slide b "Azure Integration"
    ["🎯 Azure AI Foundry - Managed agent infrastructure",
     "🧠 Azure OpenAI - GPT models and assistants",
     "🔐 Azure Identity - AAD authentication",
     "💾 Azure Cosmos DB - Workflow state storage",
     "📊 Azure Monitor - Telemetry and logging",
     "🔍 Application Insights - Performance tracking"]
  let b := create_content_slide b "Getting Started - Installation"
    ["Python:",
     "  pip install agent-framework",
     "  pip install agent-framework[azure-ai,microsoft,all]",
     "",
     ".NET:",
     "  dotnet add package Microsoft.Agents.AI --version 0.0.1-nightly-*",
     "",
     "Or run samples directly from the cloned repository!"]
  let b := create_content_slide b "Configuration - Environment Variables"
    ["OpenAI:",
     "  OPENAI_API_KEY, OPENAI_CHAT_MODEL_ID",
     "",
     "Azure OpenAI:",
     "  AZURE_OPENAI_API_KEY, AZURE_OPENAI_ENDPOINT",
     "  AZURE_OPENAI_CHAT_DEPLOYMENT_NAME",
     "",
     "Azure AI Foundry:",
     "  AZURE_AI_PROJECT_ENDPOINT, AZURE_AI_MODEL_DEPLOYMENT_NAME"]
  let b := create_two_column_slide b "Sample Projects & Examples"
    ["Python Samples:",
     "• Basic agents with tools",
     "• Azure integration",
     "• Workflow orchestration",
     "• Multi-agent patterns",
     "• Real weather API demo",
     "• Notebook tutorials"]
    [".NET Samples:",
     "• Minimal console agent",
     "• Agent providers",
     "• Orchestration patterns",
     "• Semantic Kernel migration",
     "• A2A client/server",
     "• Web chat UI"]
  let b := create_content_slide b "Development Tools"
    ["🖥️ DevUI - Web-based agent testing interface",
     "🐛 Debugging - Step through agent execution",
     "📊 Visualization - WorkflowViz for graph diagrams",
     "📝 Logging - OpenTelemetry instrumentation",
     "🔍 Tracing - Track agent interactions",
     "⏮️ Time-Travel - Replay and debug workflows"]
  let b := create_content_slide b "Best Practices"
    ["🔐 Security - Use Azure Identity, avoid hardcoded keys",
     "📝 Instructions - Clear, specific agent instructions",
     "🛠️ Tools - Type hints and descriptions for all parameters",
     "🔄 Error Handling - Graceful failures and retries",
     "📊 Monitoring - Implement telemetry and logging",
     "🧪 Testing - Unit test agents and workflows",
     "📚 Documentation - Document agent capabilities"]
  let b := create_content_slide b "Resources & Documentation"
    ["📚 Repository: github.com/microsoft/agent-framework",
     "📖 Python Docs: user-documentation-python/",
     "📖 .NET Docs: user-documentation-dotnet/",
     "🏗️ Architecture Decisions: docs/decisions/",
     "🎨 Design Docs: docs/design/",
     "🐛 Issues: GitHub Issues",
     "💬 Feedback: Microsoft Forms survey"]
  let b := create_content_slide b "Current Focus & Evolution"
    ["🚀 Active Development Areas:",
     "• Completing core agent patterns",
     "• Enhanced workflow capabilities",
     "• Additional Azure service integrations",
     "• OpenAPI and MCP tool support",
     "• Performance optimizations",
     "• Documentation and samples",
     "",
     "📦 Moving toward public preview and GA releases"]
  let b := create_content_slide b "Get Involved!"
    ["🔧 Try the Framework:",
     "  Clone the repo and run samples",
     "",
     "💬 Provide Feedback:",
     "  File issues, complete surveys",
     "",
     "🤝 Contribute:",
     "  Review contribution guidelines",
     "",
     "📢 Stay Updated:",
     "  Sync your repo regularly for latest features"]
  let b := create_title_slide b "Questions?"
    "Microsoft Agent Framework\n\nThank you!"
  b

/-- A concrete well-formed 200-response body used by witness statements. -/
def sampleWeatherJson : Json :=
  Json.obj [("weather", Json.arr [Json.obj [("description", Json.str "clear sky")]]),
    ("main", Json.obj [("temp", Json.num "15.5"), ("feels_like", Json.num "14.2"),
      ("humidity", Json.num "65")]),
    ("wind", Json.obj [("speed", Json.num "3.1")])]

/-! ## Helper lemmas -/

/-- A prefix of a list stays a prefix after appending on the right. -/
theorem segHead_extend {α : Type} {p l : List α} (t : List α) (h : p <+: l) :
    p <+: l ++ t :=
  h.trans (List.prefix_append l t)

/-- A segment inside the right part of an append is inside the whole. -/
theorem segWithin_skip {α : Type} (a : List α) {m l : List α} (h : m <:+: l) :
    m <:+: a ++ l := by
  obtain ⟨s, u, hh⟩ := h
  exact ⟨a ++ s, u, by rw [← hh]; simp⟩

/-- A list is a segment of itself followed by anything. -/
theorem segWithin_here {α : Type} (m t : List α) : m <:+: m ++ t :=
  ⟨[], t, by simp⟩

/-- A segment stays a segment after consing an element in front. -/
theorem segWithin_skip_cons {m l : List Char} (a : Char) (h : m <:+: l) :
    m <:+: a :: l := by
  obtain ⟨s, u, hh⟩ := h
  exact ⟨a :: s, u, by simp [hh]⟩

/-! ## C3: missing API key short-circuits both weather functions -/

/-- C3: for every location and every simulated transport, if the
OPENWEATHERMAP_API_KEY environment value is absent or empty then both
get_real_weather and get_real_weather_detailed return the fixed not-set
message and perform zero outbound HTTP requests. -/
theorem weather_missing_key_no_request (api_key : Option String)
    (location : String) (http : SimHttp)
    (h : api_key = none ∨ api_key = some "") :
    get_real_weather api_key location http = (apiKeyNotSetMsg, 0) ∧
    get_real_weather_detailed api_key location http = (apiKeyNotSetMsg, 0) := by
  rcases h with h | h <;> subst h <;>
    simp [get_real_weather, get_real_weather_detailed, pyFalsyStr]

/-- Witness for C3 at a concrete input. -/
theorem weather_missing_key_no_request_witness :
    get_real_weather none "Seattle" (.resp 200 (.error (.otherExn "x"))) =
      (apiKeyNotSetMsg, 0) ∧
    get_real_weather_detailed none "Seattle" (.resp 200 (.error (.otherExn "x"))) =
      (apiKeyNotSetMsg, 0) :=
  weather_missing_key_no_request none "Seattle"
    (.resp 200 (.error (.otherExn "x"))) (Or.inl rfl)

/-! ## C1: both weather functions convert failures into error strings -/

/-- C1: with the API key configured, for every simulated execution in which
the HTTP call raises a transport (client) exception, or raises any other
exception, or the 200-response body fails to parse, or the parsed body is
missing the expected fields (field extraction errors), both get_real_weather
and get_real_weather_detailed return a string rather than propagating the
exception, and that string carries the Error: indicator at its head. -/
theorem weather_failures_return_error_text (api_key : Option String)
    (location : String) (hkey : pyFalsyStr api_key = false) :
    (∀ e : PyExn,
      "Error:".data <+: (get_real_weather api_key location (.raiseExn e)).1.data ∧
      "Error:".data <+: (get_real_weather_detailed api_key location (.raiseExn e)).1.data) ∧
    (∀ e : PyExn,
      "Error:".data <+: (get_real_weather api_key location (.resp 200 (.error e))).1.data ∧
      "Error:".data <+: (get_real_weather_detailed api_key location (.resp 200 (.error e))).1.data) ∧
    (∀ (data : Json) (m : String), basicReport location data = .error m →
      "Error:".data <+: (get_real_weather api_key location (.resp 200 (.ok data))).1.data) ∧
    (∀ (data : Json) (m : String), detailedReport location data = .error m →
      "Error:".data <+: (get_real_weather_detailed api_key location (.resp 200 (.ok data))).1.data) := by
  refine ⟨fun e => ?_, fun e => ?_, fun data m h => ?_, fun data m h => ?_⟩
  · cases e <;>
      simp only [get_real_weather, get_real_weather_detailed, hkey, Bool.false_eq_true,
        if_false, weatherResponse, exnText, String.data_append] <;>
      exact ⟨segHead_extend _ (by decide), segHead_extend _ (by decide)⟩
  · cases e <;>
      simp only [get_real_weather, get_real_weather_detailed, hkey, Bool.false_eq_true,
        if_false, weatherResponse, exnText, String.data_append, if_pos rfl] <;>
      exact ⟨segHead_extend _ (by decide), segHead_extend _ (by decide)⟩
  · simp only [get_real_weather, hkey, Bool.false_eq_true, if_false, weatherResponse,
      if_pos rfl, h, String.data_append]
    exact segHead_extend _ (by decide)
  · simp only [get_real_weather_detailed, hkey, Bool.false_eq_true, if_false, weatherResponse,
      if_pos rfl, h, String.data_append]
    exact segHead_extend _ (by decide)

/-- Witness for C1: a transport error, a body-parse error, and a body with
the expected fields missing, all at concrete inputs. -/
theorem weather_failures_return_error_text_witness :
    pyFalsyStr (some "key") = false ∧
    "Error:".data <+:
      (get_real_weather (some "key") "Seattle" (.raiseExn (.clientError "boom"))).1.data ∧
    "Error:".data <+:
      (get_real_weather_detailed (some "key") "Seattle"
        (.resp 200 (.error (.otherExn "bad json")))).1.data ∧
    basicReport "Seattle" (Json.obj []) = .error "\x27weather\x27" ∧
    "Error:".data <+:
      (get_real_weather (some "key") "Seattle" (.resp 200 (.ok (Json.obj [])))).1.data ∧
    detailedReport "Seattle" (Json.obj []) = .error "\x27weather\x27" ∧
    "Error:".data <+:
      (get_real_weather_detailed (some "key") "Seattle"
        (.resp 200 (.ok (Json.obj [])))).1.data := by
  have h := weather_failures_return_error_text (some "key") "Seattle" (by decide)
  exact ⟨by decide, (h.1 _).1, (h.2.1 _).2, rfl,
    h.2.2.1 (Json.obj []) "\x27weather\x27" rfl, rfl,
    h.2.2.2 (Json.obj []) "\x27weather\x27" rfl⟩

/-! ## C2: get_real_weather status mapping -/

/-- C2: for every location and simulated upstream response: a 200 status
with a well-formed body yields the report interpolating the body's
description, temperature, feels-like, humidity and wind-speed values (a
header line plus four data lines, hence exactly four line breaks when no
interpolated text contains one, each value appearing in the text); a 401
status yields the fixed invalid-key text; a 404 status yields the fixed
not-found text containing the requested location; and any other status
yields the generic text containing that numeric status code. -/
theorem get_real_weather_status_mapping
    (api_key : Option String) (location : String)
    (hkey : pyFalsyStr api_key = false)
    (data weatherJ w0 descJ mainJ tempJ feelsJ humJ windJ speedJ : Json)
    (hweather : data.sub "weather" = .ok weatherJ)
    (hw0 : weatherJ.idx 0 = .ok w0)
    (hdesc : w0.sub "description" = .ok descJ)
    (hmain : data.sub "main" = .ok mainJ)
    (htemp : mainJ.sub "temp" = .ok tempJ)
    (hfeels : mainJ.sub "feels_like" = .ok feelsJ)
    (hhum : mainJ.sub "humidity" = .ok humJ)
    (hwind : data.sub "wind" = .ok windJ)
    (hspeed : windJ.sub "speed" = .ok speedJ) :
    ((get_real_weather api_key location (.resp 200 (.ok data))).1 =
      "Weather in " ++ location ++ ":\n- Conditions: " ++ descJ.render ++
      "\n- Temperature: " ++ tempJ.render ++ "°C (feels like " ++ feelsJ.render ++
      "°C)\n- Humidity: " ++ humJ.render ++ "%\n- Wind Speed: " ++ speedJ.render ++ " m/s") ∧
    ('\n' ∉ location.data → '\n' ∉ descJ.render.data → '\n' ∉ tempJ.render.data →
     '\n' ∉ feelsJ.render.data → '\n' ∉ humJ.render.data → '\n' ∉ speedJ.render.data →
     (get_real_weather api_key location (.resp 200 (.ok data))).1.data.count '\n' = 4) ∧
    descJ.render.data <:+: (get_real_weather api_key location (.resp 200 (.ok data))).1.data ∧
    tempJ.render.data <:+: (get_real_weather api_key location (.resp 200 (.ok data))).1.data ∧
    feelsJ.render.data <:+: (get_real_weather api_key location (.resp 200 (.ok data))).1.data ∧
    humJ.render.data <:+: (get_real_weather api_key location (.resp 200 (.ok data))).1.data ∧
    speedJ.render.data <:+: (get_real_weather api_key location (.resp 200 (.ok data))).1.data ∧
    (∀ body, (get_real_weather api_key location (.resp 401 body)).1 = invalidKeyMsg) ∧
    (∀ body, (get_real_weather api_key location (.resp 404 body)).1 = notFoundMsg location ∧
      location.data <:+: (get_real_weather api_key location (.resp 404 body)).1.data) ∧
    (∀ (s : Nat) (body : Except PyExn Json), s ≠ 200 → s ≠ 401 → s ≠ 404 →
      (get_real_weather api_key location (.resp s body)).1 = otherStatusMsg location s ∧
      (toString s).data <:+: (get_real_weather api_key location (.resp s body)).1.data) := by
  have hsucc : (get_real_weather api_key location (.resp 200 (.ok data))).1 =
      "Weather in " ++ location ++ ":\n- Conditions: " ++ descJ.render ++
      "\n- Temperature: " ++ tempJ.render ++ "°C (feels like " ++ feelsJ.render ++
      "°C)\n- Humidity: " ++ humJ.render ++ "%\n- Wind Speed: " ++ speedJ.render ++ " m/s" := by
    simp [get_real_weather, hkey, weatherResponse, basicReport, hweather, hw0, hdesc,
      hmain, htemp, hfeels, hhum, hwind, hspeed, Bind.bind, Except.bind]
  refine ⟨hsucc, ?_, ?_, ?_, ?_, ?_, ?_, ?_, ?_, ?_⟩
  · intro h1 h2 h3 h4 h5 h6
    rw [hsucc]
    simp only [String.data_append, List.count_append,
      List.count_eq_zero.mpr h1, List.count_eq_zero.mpr h2, List.count_eq_zero.mpr h3,
      List.count_eq_zero.mpr h4, List.count_eq_zero.mpr h5, List.count_eq_zero.mpr h6]
    decide
  all_goals try
    (rw [hsucc]; simp only [String.data_append, List.append_assoc];
     repeat first
       | exact segWithin_here _ _
       | apply segWithin_skip
       | apply segWithin_skip_cons)
  · intro body
    simp [get_real_weather, hkey, weatherResponse]
  · intro body
    have h404 : (get_real_weather api_key location (.resp 404 body)).1 =
        notFoundMsg location := by
      simp [get_real_weather, hkey, weatherResponse]
    refine ⟨h404, ?_⟩
    rw [h404]
    refine ⟨"Error: City \x27".data,
      "\x27 not found. Try using format like \x27Seattle\x27 or \x27London,UK\x27.".data, ?_⟩
    simp [notFoundMsg, String.data_append]
  · intro s body hs1 hs2 hs3
    have hgen : (get_real_weather api_key location (.resp s body)).1 =
        otherStatusMsg location s := by
      simp [get_real_weather, hkey, weatherResponse, hs1, hs2, hs3]
    refine ⟨hgen, ?_⟩
    rw [hgen]
    refine ⟨"Error: Could not fetch weather for ".data ++ location.data ++ " (Status: ".data,
      ")".data, ?_⟩
    simp [otherStatusMsg, String.data_append]

/-- Witness for C2 at concrete inputs covering statuses 200, 401, 404 and 500. -/
theorem get_real_weather_status_mapping_witness :
    (get_real_weather (some "key") "Seattle" (.resp 200 (.ok sampleWeatherJson))).1 =
      "Weather in Seattle:\n- Conditions: clear sky\n- Temperature: 15.5°C (feels like 14.2°C)\n- Humidity: 65%\n- Wind Speed: 3.1 m/s" ∧
    (get_real_weather (some "key") "Seattle" (.resp 200 (.ok sampleWeatherJson))).1.data.count '\n' = 4 ∧
    "clear sky".data <:+:
      (get_real_weather (some "key") "Seattle" (.resp 200 (.ok sampleWeatherJson))).1.data ∧
    (get_real_weather (some "key") "Seattle" (.resp 401 (.ok (Json.obj [])))).1 = invalidKeyMsg ∧
    (get_real_weather (some "key") "Seattle" (.resp 404 (.ok (Json.obj [])))).1 =
      notFoundMsg "Seattle" ∧
    (get_real_weather (some "key") "Seattle" (.resp 500 (.ok (Json.obj [])))).1 =
      otherStatusMsg "Seattle" 500 ∧
    "500".data <:+:
      (get_real_weather (some "key") "Seattle" (.resp 500 (.ok (Json.obj [])))).1.data := by
  obtain ⟨he, hcnt, hd, ht, hf, hh2, hw, h401, h404, hoth⟩ :=
    get_real_weather_status_mapping (some "key") "Seattle" (by decide)
      sampleWeatherJson
      (Json.arr [Json.obj [("description", Json.str "clear sky")]])
      (Json.obj [("description", Json.str "clear sky")])
      (Json.str "clear sky")
      (Json.obj [("temp", Json.num "15.5"), ("feels_like", Json.num "14.2"),
        ("humidity", Json.num "65")])
      (Json.num "15.5") (Json.num "14.2") (Json.num "65")
      (Json.obj [("speed", Json.num "3.1")]) (Json.num "3.1")
      rfl rfl rfl rfl rfl rfl rfl rfl rfl
  exact ⟨he.trans rfl, hcnt (by decide) (by decide) (by decide) (by decide) (by decide) (by decide),
    hd, h401 _, (h404 _).1, (hoth 500 _ (by decide) (by decide) (by decide)).1,
    (hoth 500 _ (by decide) (by decide) (by decide)).2⟩

/-! ## C5: heading level clamping -/

/-- A heading-matching line starts with a marker character. -/
theorem headingMatch_head {line : String} {p : Nat × String}
    (h : headingMatch line = some p) : ∃ cs, line.data = '#' :: cs := by
  cases hl : line.data with
  | nil => simp [headingMatch, hl] at h
  | cons c cs =>
    by_cases hc : c = '#'
    · subst hc; exact ⟨cs, rfl⟩
    · exfalso
      simp [headingMatch, hl, List.takeWhile, hc] at h

/-- A heading-matching line is not a fence line. -/
theorem headingMatch_not_fence {line : String} {p : Nat × String}
    (h : headingMatch line = some p) : fenceMatch line = none := by
  obtain ⟨cs, hl⟩ := headingMatch_head h
  have ht : line.data.take 3 = '#' :: cs.take 2 := by rw [hl]; rfl
  unfold fenceMatch
  rw [ht, if_neg]
  intro hh
  rw [show ("```".data : List Char) = ['`', '`', '`'] from rfl] at hh
  injection hh with h1 _
  exact absurd h1 (by decide)

/-- dropWhile of a list ending in a non-matching element is nonempty. -/
theorem dropWhile_concat_ne_nil {p : Char → Bool} {c : Char} (hc : p c = false) :
    ∀ l : List Char, (l ++ [c]).dropWhile p ≠ []
  | [] => by simp [List.dropWhile_cons, hc]
  | a :: l => by
    by_cases ha : p a = true
    · simpa [List.dropWhile_cons, ha] using dropWhile_concat_ne_nil hc l
    · simp [List.dropWhile_cons, ha]

/-- Stripping a list whose head is not whitespace leaves it nonempty. -/
theorem pyStripL_ne_nil {c : Char} (hc : pyIsSpace c = false) (cs : List Char) :
    pyStripL (c :: cs) ≠ [] := by
  have hrev : (c :: cs).reverse = cs.reverse ++ [c] := by simp
  have hd : List.dropWhile pyIsSpace ((c :: cs).reverse) ≠ [] := by
    rw [hrev]; exact dropWhile_concat_ne_nil hc _
  obtain ⟨t, ht⟩ :=
    (List.dropWhile_suffix pyIsSpace :
      List.dropWhile pyIsSpace ((c :: cs).reverse) <:+ (c :: cs).reverse)
  have hApp := List.getLast?_append_of_ne_nil t hd
  rw [ht] at hApp
  have hlast : (List.dropWhile pyIsSpace ((c :: cs).reverse)).getLast? = some c := by
    rw [← hApp, hrev, List.getLast?_concat]
  unfold pyStripL pyRstripL pyLstripL
  have hh : ((List.dropWhile pyIsSpace ((c :: cs).reverse)).reverse).head? = some c := by
    rw [List.head?_reverse]; exact hlast
  cases hw : (List.dropWhile pyIsSpace ((c :: cs).reverse)).reverse with
  | nil => rw [hw] at hh; simp at hh
  | cons d rest =>
    rw [hw] at hh
    injection hh with hdc
    subst hdc
    simp [List.dropWhile_cons, hc]

/-- A heading-matching line does not strip to blank. -/
theorem headingMatch_not_blank {line : String} {p : Nat × String}
    (h : headingMatch line = some p) : pyStrip line ≠ "" := by
  obtain ⟨cs, hl⟩ := headingMatch_head h
  rw [pyStrip, hl]
  intro hh
  have hnil : pyStripL ('#' :: cs) = [] := congrArg String.data hh
  exact pyStripL_ne_nil (by decide) cs hnil

/-- C5: a heading line with n markers, 1 ≤ n ≤ 6, followed by whitespace and
text, makes the converter emit a heading block of level min(n,4); in
particular a 6-marker heading yields a level-4 heading block. -/
theorem convert_heading_level_clamp
    (st : ConvSt) (raw : String) (n : Nat) (t : String)
    (hin : st.in_code = false) (htb : st.table_buffer = [])
    (hm : headingMatch (pyRstrip raw) = some (n, t)) :
    convertStep st raw =
      .ok { st with out := st.out ++ [Block.heading (min n 4) (pyStrip t)] } ∧
    convert_lines ["###### Deep"] = .ok [Block.heading 4 "Deep"] := by
  constructor
  · have hf : fenceMatch (pyRstrip raw) = none := headingMatch_not_fence hm
    have hb : pyStrip (pyRstrip raw) ≠ "" := headingMatch_not_blank hm
    simp [convertStep, hf, hin, hb, hm, flush_table, htb, add_heading,
      Bind.bind, Except.bind, Nat.min_def]
  · rfl

/-- Witness for C5: a six-marker heading line emits a level-4 heading. -/
theorem convert_heading_level_clamp_witness :
    headingMatch (pyRstrip "###### Deep") = some (6, "Deep") ∧
    convertStep initSt "###### Deep" =
      .ok { initSt with out := initSt.out ++ [Block.heading (min 6 4) (pyStrip "Deep")] } :=
  ⟨rfl, (convert_heading_level_clamp initSt "###### Deep" 6 "Deep" rfl rfl rfl).1⟩

/-! ## C6: table row capture -/

/-- C6: the three lines of a pipe table produce one table whose header row
is A,B and whose single body row is 1,2; the alignment-separator line
contributes no row; and flushing a table buffer with zero captured rows
produces no table output and leaves the state unchanged. -/
theorem convert_table_rows :
    convert_lines ["| A | B |", "|---|---|", "| 1 | 2 |"] =
      .ok [Block.table ["A", "B"] [["1", "2"]]] ∧
    add_table [] = .ok none ∧
    (∀ st : ConvSt, st.table_buffer = [] → flush_table st = .ok st) := by
  refine ⟨rfl, rfl, fun st h => ?_⟩
  simp [flush_table, h]

/-- Witness for C6: the empty-buffer flush on the initial state. -/
theorem convert_table_rows_witness :
    initSt.table_buffer = [] ∧ flush_table initSt = .ok initSt :=
  ⟨rfl, convert_table_rows.2.2 initSt rfl⟩

/-! ## C7: missing markdown source is fatal -/

/-- C7: converting with the fixed markdown source missing terminates with
the error exit (a non-ok result, so no document is constructed or saved)
whose message names the missing path; the check precedes any document
construction. -/
theorem convert_missing_source_fatal :
    convert_md_to_docx none = .error ("Markdown file not found: " ++ MD_FILE) ∧
    MD_FILE.data <:+: ("Markdown file not found: " ++ MD_FILE).data ∧
    (∀ blocks : List Block, convert_md_to_docx none ≠ .ok blocks) := by
  refine ⟨rfl, by decide, fun blocks h => ?_⟩
  simp [convert_md_to_docx] at h

/-- Witness for C7: the missing-source run is not the empty document. -/
theorem convert_missing_source_fatal_witness :
    convert_md_to_docx none ≠ .ok [] :=
  convert_missing_source_fatal.2.2 []

/-! ## C10: table rendering width safety -/

/-- Rendering all body rows succeeds and pads to the header width when no
body row is wider than the header row. -/
theorem renderRows_ok (w : Nat) :
    ∀ (body : List (List String)), (∀ r ∈ body, r.length ≤ w) →
      renderRows w body =
        .ok (body.map fun r => r.map pyStrip ++ List.replicate (w - r.length) "") := by
  intro body hb
  induction body with
  | nil => rfl
  | cons r rs ih =>
    have hr : r.length ≤ w := hb r (List.mem_cons_self r rs)
    have hrs := ih fun x hx => hb x (List.mem_cons_of_mem r hx)
    simp [renderRows, setRowCells, hr, hrs, Bind.bind, Except.bind]

/-- C10: add_table sizes the table to the first captured row's cell count
and fills body rows positionally; it succeeds for every table whose body
rows are at most that wide (each rendered row having exactly the header
width), and a body row wider than the header makes the positional index
access fail, so the conversion of such an input is an error. -/
theorem add_table_width_safety :
    (∀ (hdr : List String) (body : List (List String)),
      (∀ r ∈ body, r.length ≤ hdr.length) →
      ∃ brows, add_table (hdr :: body) = .ok (some (.table (hdr.map pyStrip) brows)) ∧
        brows.length = body.length ∧
        ∀ r ∈ brows, r.length = hdr.length) ∧
    convert_lines ["| A |", "| 1 | 2 |"] = .error "tuple index out of range" := by
  constructor
  · intro hdr body hb
    refine ⟨body.map fun r => r.map pyStrip ++ List.replicate (hdr.length - r.length) "",
      ?_, by simp, ?_⟩
    · simp [add_table, renderRows_ok hdr.length body hb, Bind.bind, Except.bind]
    · intro r hr
      simp only [List.mem_map] at hr
      obtain ⟨a, ha, rfl⟩ := hr
      have := hb a ha
      simp [List.length_append, List.length_replicate]
      omega
  · rfl

/-- Witness for C10: a two-column header with a narrower body row renders
into rows of the header width. -/
theorem add_table_width_safety_witness :
    ∃ brows, add_table [["A", "B"], ["1"]] =
        .ok (some (.table ((["A", "B"] : List String).map pyStrip) brows)) ∧
      brows.length = ([["1"]] : List (List String)).length ∧
      ∀ r ∈ brows, r.length = (["A", "B"] : List String).length :=
  add_table_width_safety.1 ["A", "B"] [["1"]] (by decide)

/-! ## C4: code fence integrity -/

/-- C4: reaching an opening fence line carrying a language tag outside any
code block (after a successfully converted prefix), three interior lines
that are not fence lines are buffered verbatim — even if they look like
headings or table rows — and the closing fence emits exactly one code block
whose content is the three lines joined by line breaks. -/
theorem convert_code_fence_integrity
    (pre : List String) (st0 : ConvSt)
    (openLine l1 l2 l3 closeLine tag rest2 : String)
    (hpre : pre.foldlM convertStep initSt = .ok st0)
    (hin : st0.in_code = false) (hbuf : st0.code_buffer = [])
    (hopen : fenceMatch (pyRstrip openLine) = some tag) (htag : pyStrip tag ≠ "")
    (h1 : fenceMatch (pyRstrip l1) = none) (r1 : pyRstrip l1 = l1)
    (h2 : fenceMatch (pyRstrip l2) = none) (r2 : pyRstrip l2 = l2)
    (h3 : fenceMatch (pyRstrip l3) = none) (r3 : pyRstrip l3 = l3)
    (hclose : fenceMatch (pyRstrip closeLine) = some rest2) :
    (pre ++ [openLine, l1, l2, l3, closeLine]).foldlM convertStep initSt =
      .ok { st0 with
              in_code := false, code_lang := none, code_buffer := [],
              out := st0.out ++
                [Block.codeBlock (some (pyStrip tag)) (pyJoin "\n" [l1, l2, l3])] } ∧
    pyJoin "\n" [l1, l2, l3] = l1 ++ "\n" ++ l2 ++ "\n" ++ l3 := by
  constructor
  · have h1a : fenceMatch l1 = none := by rw [← r1]; exact h1
    have h2a : fenceMatch l2 = none := by rw [← r2]; exact h2
    have h3a : fenceMatch l3 = none := by rw [← r3]; exact h3
    rw [List.foldlM_append, hpre]
    show ([openLine, l1, l2, l3, closeLine].foldlM convertStep st0) = _
    simp [List.foldlM_cons, convertStep, hopen, hin, hbuf, h1a, r1, h2a, r2, h3a, r3,
      hclose, flush_code, add_code_block, strOrNone, htag, Bind.bind, Except.bind, pure, Except.pure]
  · simp [pyJoin, String.append_assoc]

/-- Witness for C4: a fenced block tagged text containing a heading-shaped
line, a table-shaped line and a plain line becomes one code block. -/
theorem convert_code_fence_integrity_witness :
    (([] : List String) ++ ["```text", "# h", "| a | b |", "x", "```"]).foldlM convertStep
        initSt =
      .ok { initSt with
              in_code := false, code_lang := none, code_buffer := [],
              out := initSt.out ++
                [Block.codeBlock (some (pyStrip "text"))
                  (pyJoin "\n" ["# h", "| a | b |", "x"])] } ∧
    pyJoin "\n" ["# h", "| a | b |", "x"] = "# h" ++ "\n" ++ "| a | b |" ++ "\n" ++ "x" :=
  convert_code_fence_integrity [] initSt "```text" "# h" "| a | b |" "x" "```" "text" ""
    rfl rfl rfl rfl (by decide) rfl rfl rfl rfl rfl rfl rfl

/-! ## C8: deck size, sequence and canvas invariants -/

/-- C8: every run of main yields a deck of exactly 23 slides in the fixed
category sequence, with the canvas width 10 and height 7.5 inch-equivalent
units assigned before any slide is appended: the first two recorded events
are the two dimension assignments and every later event is a slide
addition. -/
theorem main_deck_invariants :
    main.1.slides.length = 23 ∧
    main.1.slide_width = some (Inches 10) ∧
    main.1.slide_height = some (Inches 7.5) ∧
    main.1.slides.map Slide.cat =
      [SlideCat.titleS, SlideCat.contentS, SlideCat.contentS, SlideCat.contentS,
       SlideCat.contentS, SlideCat.twoColS, SlideCat.contentS, SlideCat.contentS,
       SlideCat.contentS, SlideCat.codeS, SlideCat.codeS, SlideCat.codeS,
       SlideCat.contentS, SlideCat.contentS, SlideCat.contentS, SlideCat.contentS,
       SlideCat.twoColS, SlideCat.contentS, SlideCat.contentS, SlideCat.contentS,
       SlideCat.contentS, SlideCat.contentS, SlideCat.titleS] ∧
    main.2.take 2 = [Ev.setWidth (Inches 10), Ev.setHeight (Inches 7.5)] ∧
    (main.2.drop 2).all Ev.isAddSlide = true ∧
    (main.2.filter Ev.isAddSlide).length = 23 :=
  ⟨rfl, rfl, rfl, rfl, rfl, rfl, rfl⟩

/-! ## C9: slide title formatting -/

/-- C9 counterexample: the two-column slide constructor does not assign the
title colour, so a two-column slide's title colour is not RGB(0,51,102). -/
theorem two_column_title_color_missing :
    ((create_two_column_slide ({}, []) "Cross-Platform Support" ["a"] ["b"]).1.slides.map
      fun s => s.titleColor) ≠ [some ⟨0, 51, 102⟩] := by
  simp [create_two_column_slide, appendSlide]

/-- C9 amended: title slides set a 44pt bold title in RGB(0,51,102);
content and code slides set a 32pt bold title in RGB(0,51,102); two-column
slides set a 32pt bold title but assign no title colour. -/
theorem slide_title_formatting (b : Build) (t sub : String) (items l r : List String)
    (code lang : String) :
    ((create_title_slide b t sub).1.slides.getLast?.map fun s =>
      (s.titleSize, s.titleBold, s.titleColor)) =
      some (some (Pt 44), some true, some ⟨0, 51, 102⟩) ∧
    ((create_content_slide b t items).1.slides.getLast?.map fun s =>
      (s.titleSize, s.titleBold, s.titleColor)) =
      some (some (Pt 32), some true, some ⟨0, 51, 102⟩) ∧
    ((create_two_column_slide b t l r).1.slides.getLast?.map fun s =>
      (s.titleSize, s.titleBold, s.titleColor)) =
      some (some (Pt 32), some true, none) ∧
    ((create_code_slide b t code lang).1.slides.getLast?.map fun s =>
      (s.titleSize, s.titleBold, s.titleColor)) =
      some (some (Pt 32), some true, some ⟨0, 51, 102⟩) := by
  refine ⟨?_, ?_, ?_, ?_⟩ <;>
    simp [create_title_slide, create_content_slide, create_two_column_slide,
      create_code_slide, appendSlide]

end AgentSamples
